import Mathlib

/-
Verification of `src/reddit_autopost.py` (Svg70/reddit-posting).

The program is embedded shallowly:

* Python `Optional[str]` fields become `Option String`; Python truthiness of
  such a field (`if not x`) becomes `optStrTruthy`.
* Every HTTP exchange is modelled by an oracle value supplied as an argument:
  a `Transport α` is either a delivered response (`resp`) or a raised
  transport exception (`exn`, the `requests` exceptions caught by the
  `try/except` blocks of the source).  A delivered response carries its
  status code and, where the source parses JSON, an `Option`-al parsed body
  (`none` = `response.json()` raises, which the `except` catches).
* The network requests an operation performs are recorded as a `List NetEvent`
  in program order, so sequencing claims ("a failed lease never fetches")
  become statements about that list.
* Request payload fields that no claim inspects (form dictionaries, file
  names, MIME types, multipart bodies) are not modelled; the `kind` field of
  a media submission, which a claim does inspect, is.
* The `<Location>` extraction works on `List Char` with Python `str.find`
  (first index or -1) and Python slice semantics reproduced exactly
  (`pyFind`, `pySlice`).
-/

namespace RedditAutopost

/-- Python truthiness of an `Optional[str]` value: `None` and `""` are falsy,
every other string is truthy (`if not self.access_token`, `if not action`, ...). -/
def optStrTruthy : Option String → Bool
  | none => false
  | some s => !(s == "")

/-- Outcome of one `requests` call: a delivered response, or a raised
transport exception (timeout, connection error, ...). -/
inductive Transport (α : Type) where
  | resp : α → Transport α
  | exn : Transport α

/-- An HTTP response: status code plus the JSON body as parsed by
`response.json()`; `body = none` means the body is not valid JSON and
`response.json()` raises. -/
structure HttpResp (β : Type) where
  status : Nat
  body : Option β

/-! ## Python string search and slicing (`str.find`, `s[a:b]`, `in`) -/

/-- First index at which `pat` occurs as a contiguous run in `s`; `none` when
it does not occur (`str.find` returning non-negative vs `-1`). -/
def findSub : List Char → List Char → Option Nat
  | [], pat => if pat = [] then some 0 else none
  | c :: rest, pat =>
    if pat.isPrefixOf (c :: rest) then some 0
    else
      match findSub rest pat with
      | some n => some (n + 1)
      | none => none

/-- Python `pat in s` for strings. -/
def containsSub (s pat : List Char) : Bool :=
  (findSub s pat).isSome

/-- Python `s.find(pat)`: the first occurrence index, or `-1`. -/
def pyFind (s pat : List Char) : Int :=
  match findSub s pat with
  | some i => (i : Int)
  | none => -1

/-- Normalisation of one slice bound, as Python does it: a negative bound has
the length added; the result is clamped into `[0, len]`. -/
def normSliceIdx (len : Nat) (i : Int) : Nat :=
  let j : Int := if i < 0 then i + len else i
  if j < 0 then 0 else min j.toNat len

/-- Python `s[a:b]` for integer bounds `a`, `b`. -/
def pySlice (s : List Char) (a b : Int) : List Char :=
  (s.take (normSliceIdx s.length b)).drop (normSliceIdx s.length a)

/-! ## The `<Location>` extraction (lines 319-329 of the source)

```python
response_text = upload_response.text
if '<Location>' in response_text:
    start = response_text.find('<Location>') + 10
    end = response_text.find('</Location>')
    location = response_text[start:end]
    return location
else:
    return None
```
-/

/-- The location-extraction step applied to the upload response body. -/
def extract_location (responseText : List Char) : Option (List Char) :=
  if containsSub responseText ("<Location>".toList) then
    some (pySlice responseText
      (pyFind responseText ("<Location>".toList) + 10)
      (pyFind responseText ("</Location>".toList)))
  else
    none

/-! ### Facts about `findSub`, `pyFind` and `pySlice` -/

lemma findSub_le_length (s pat : List Char) (i : Nat)
    (h : findSub s pat = some i) : i ≤ s.length := by
  induction s generalizing i with
  | nil =>
    unfold findSub at h
    split at h
    · injection h with h'
      simp only [List.length_nil]
      omega
    · exact Option.noConfusion h
  | cons c rest ih =>
    unfold findSub at h
    split at h
    · injection h with h'
      simp only [List.length_cons]
      omega
    · split at h
      · rename_i n hn
        injection h with h'
        have := ih n hn
        simp only [List.length_cons]
        omega
      · exact Option.noConfusion h

lemma findSub_isPrefix (s pat : List Char) (i : Nat)
    (h : findSub s pat = some i) : pat.isPrefixOf (s.drop i) = true := by
  induction s generalizing i with
  | nil =>
    unfold findSub at h
    split at h
    · rename_i hp
      injection h with h'
      subst hp
      subst h'
      rfl
    · exact Option.noConfusion h
  | cons c rest ih =>
    unfold findSub at h
    split at h
    · rename_i hpre
      injection h with h'
      subst h'
      simpa using hpre
    · split at h
      · rename_i n hn
        injection h with h'
        subst h'
        simpa using ih n hn
      · exact Option.noConfusion h

lemma findSub_add_length_le (s pat : List Char) (i : Nat)
    (h : findSub s pat = some i) : i + pat.length ≤ s.length := by
  have h1 := findSub_le_length s pat i h
  have h2 := findSub_isPrefix s pat i h
  have h3 : pat <+: s.drop i := List.isPrefixOf_iff_prefix.mp h2
  have h4 : pat.length ≤ (s.drop i).length := h3.length_le
  simp only [List.length_drop] at h4
  omega

lemma pyFind_of_some (s pat : List Char) (i : Nat)
    (h : findSub s pat = some i) : pyFind s pat = (i : Int) := by
  unfold pyFind
  rw [h]

lemma pyFind_of_none (s pat : List Char)
    (h : findSub s pat = none) : pyFind s pat = -1 := by
  unfold pyFind
  rw [h]

lemma normSliceIdx_natCast (len a : Nat) :
    normSliceIdx len (a : Int) = min a len := by
  have hA : ¬ ((a : Int) < 0) := by omega
  simp only [normSliceIdx]
  rw [if_neg hA, if_neg hA, Int.toNat_natCast]

lemma normSliceIdx_neg_one (len : Nat) (hlen : 1 ≤ len) :
    normSliceIdx len (-1) = len - 1 := by
  have hB : (-1 : Int) < 0 := by omega
  have hB2 : ¬ ((-1 : Int) + (len : Int) < 0) := by omega
  simp only [normSliceIdx]
  rw [if_pos hB, if_neg hB2]
  have h1 : ((-1 : Int) + (len : Int)).toNat = len - 1 := by omega
  rw [h1]
  omega

lemma pySlice_natCast (s : List Char) (a b : Nat)
    (ha : a ≤ s.length) (hb : b ≤ s.length) :
    pySlice s (a : Int) (b : Int) = (s.take b).drop a := by
  unfold pySlice
  rw [normSliceIdx_natCast, normSliceIdx_natCast,
    Nat.min_eq_left ha, Nat.min_eq_left hb]

lemma pySlice_neg_one (s : List Char) (a : Nat)
    (ha : a ≤ s.length) (hlen : 1 ≤ s.length) :
    pySlice s (a : Int) (-1) = (s.take (s.length - 1)).drop a := by
  unfold pySlice
  rw [normSliceIdx_neg_one _ hlen, normSliceIdx_natCast, Nat.min_eq_left ha]

/-- C2: when the body contains both tags, the extractor returns exactly the
text strictly between the first `<Location>` (which is 10 characters long)
and the first `</Location>`; when `<Location>` is absent it fails cleanly;
and on the spec's example body it returns exactly the contained URL. -/
theorem extract_location_between_first_tags :
    (∀ (s : List Char) (i j : Nat),
        findSub s ("<Location>".toList) = some i →
        findSub s ("</Location>".toList) = some j →
        extract_location s = some ((s.take j).drop (i + 10)))
    ∧ (∀ s : List Char,
        findSub s ("<Location>".toList) = none → extract_location s = none)
    ∧ extract_location
        ("<PostResponse><Location>https://cdn/x.jpg</Location></PostResponse>".toList)
        = some ("https://cdn/x.jpg".toList) := by
  refine ⟨?_, ?_, ?_⟩
  · intro s i j h1 h2
    have hx : i + 10 ≤ s.length := by
      have h10 := findSub_add_length_le s ("<Location>".toList) i h1
      have hl : ("<Location>".toList).length = 10 := by decide
      omega
    have hy : j ≤ s.length := findSub_le_length s ("</Location>".toList) j h2
    have hc : containsSub s ("<Location>".toList) = true := by
      unfold containsSub
      rw [h1]
      rfl
    unfold extract_location
    rw [if_pos hc, pyFind_of_some _ _ _ h1, pyFind_of_some _ _ _ h2]
    have hcast : ((i : Int) + 10) = ((i + 10 : Nat) : Int) := by push_cast; ring
    rw [hcast, pySlice_natCast s (i + 10) j hx hy]
  · intro s h
    have hc : containsSub s ("<Location>".toList) = false := by
      unfold containsSub
      rw [h]
      rfl
    unfold extract_location
    rw [if_neg (by rw [hc]; exact Bool.false_ne_true)]
  · decide

/-- Witness for C2 at the spec's example body: `<Location>` first occurs at
index 14 and `</Location>` at index 41. -/
theorem extract_location_between_first_tags_witness :
    extract_location
      ("<PostResponse><Location>https://cdn/x.jpg</Location></PostResponse>".toList)
      = some ((("<PostResponse><Location>https://cdn/x.jpg</Location></PostResponse>".toList).take 41).drop (14 + 10)) :=
  extract_location_between_first_tags.1 _ 14 41 (by decide) (by decide)

/-- C9: a body with `<Location>` but no `</Location>` does not make the
extractor fail: `find` of the missing closing tag yields `-1`, so the slice
runs from just after `<Location>` to just before the last character of the
body, and that silently truncated string is returned. -/
theorem extract_location_missing_close_truncates :
    ∀ (s : List Char) (i : Nat),
      findSub s ("<Location>".toList) = some i →
      findSub s ("</Location>".toList) = none →
      extract_location s = some ((s.take (s.length - 1)).drop (i + 10)) := by
  intro s i h1 h2
  have hx : i + 10 ≤ s.length := by
    have h10 := findSub_add_length_le s ("<Location>".toList) i h1
    have hl : ("<Location>".toList).length = 10 := by decide
    omega
  have hc : containsSub s ("<Location>".toList) = true := by
    unfold containsSub
    rw [h1]
    rfl
  unfold extract_location
  rw [if_pos hc, pyFind_of_some _ _ _ h1, pyFind_of_none _ _ h2]
  have hcast : ((i : Int) + 10) = ((i + 10 : Nat) : Int) := by push_cast; ring
  rw [hcast, pySlice_neg_one s (i + 10) hx (by omega)]

/-- Witness for C9: on body `<Location>abc` the extractor succeeds and
returns the truncated text `ab`. -/
theorem extract_location_missing_close_truncates_witness :
    extract_location ("<Location>abc".toList)
      = some ((("<Location>abc".toList).take (("<Location>abc".toList).length - 1)).drop (0 + 10)) :=
  extract_location_missing_close_truncates _ 0 (by decide) (by decide)

/-! ## `RedditAutoPoster.authenticate` (lines 59-105 of the source)

The poster's token state is `access_token : Optional[str]` (initially `None`)
and `token_type : str` (initially `"bearer"`).  `authenticate` POSTs the
password grant and, on HTTP 200, stores `token_data.get('access_token')` and
`token_data.get('token_type', 'bearer')` and returns `True`; on any other
status, or any raised exception, it returns `False` leaving the state alone.
-/

/-- The JSON body of a token response: value of the `access_token` key
(`none` when the key is absent) and of the `token_type` key. -/
structure AuthBody where
  access_token : Option String
  token_type : Option String

/-- The mutable token state of a `RedditAutoPoster`. -/
structure PosterState where
  access_token : Option String
  token_type : String

def authenticate (st : PosterState) (r : Transport (HttpResp AuthBody)) :
    Bool × PosterState :=
  match r with
  | .exn => (false, st)
  | .resp resp =>
    if resp.status = 200 then
      match resp.body with
      | some b =>
        (true, { access_token := b.access_token,
                 token_type := b.token_type.getD "bearer" })
      | none => (false, st)
    else
      (false, st)

/-- C4: on a transport failure or a non-200 status, `authenticate` returns
`false` with the token state exactly as before (it never raises: the model
is a total function); on a 200 response with a parseable body it stores the
parsed `access_token` and `token_type` (defaulting to `"bearer"`) and
returns `true`. -/
theorem authenticate_error_handling :
    (∀ st : PosterState, authenticate st Transport.exn = (false, st))
    ∧ (∀ (st : PosterState) (resp : HttpResp AuthBody),
        resp.status ≠ 200 → authenticate st (Transport.resp resp) = (false, st))
    ∧ (∀ (st : PosterState) (resp : HttpResp AuthBody) (b : AuthBody),
        resp.status = 200 → resp.body = some b →
        authenticate st (Transport.resp resp) =
          (true, { access_token := b.access_token,
                   token_type := b.token_type.getD "bearer" })) := by
  refine ⟨fun st => rfl, ?_, ?_⟩
  · intro st resp h
    simp only [authenticate]
    rw [if_neg h]
  · intro st resp b h1 h2
    simp only [authenticate]
    rw [if_pos h1, h2]

/-- Witness for C4: a 401 response leaves an existing token untouched and
returns `false`; a 200 response with body `{access_token: "tok"}` stores the
token and returns `true`. -/
theorem authenticate_error_handling_witness :
    authenticate { access_token := some "old", token_type := "bearer" }
        (Transport.resp { status := 401, body := none })
      = (false, { access_token := some "old", token_type := "bearer" })
    ∧ authenticate { access_token := none, token_type := "bearer" }
        (Transport.resp { status := 200, body := some { access_token := some "tok", token_type := none } })
      = (true, { access_token := some "tok", token_type := "bearer" }) :=
  ⟨authenticate_error_handling.2.1 _ _ (by decide),
   authenticate_error_handling.2.2 _ _ { access_token := some "tok", token_type := none } rfl rfl⟩

/-- C8: a 200 token response whose JSON body has no `access_token` key makes
`authenticate` return `true` while storing `None` as the access token,
whatever token (even a valid one) was held before — so `true` does not
guarantee a non-null token afterwards. -/
theorem authenticate_true_with_null_token :
    ∀ (st : PosterState) (tt : Option String),
      authenticate st
          (Transport.resp { status := 200, body := some { access_token := none, token_type := tt } })
        = (true, { access_token := none, token_type := tt.getD "bearer" }) := by
  intro st tt
  rfl

/-! ## `RedditAutoPoster._upload_media` (lines 253-333 of the source)

The network calls an operation makes are recorded in program order. -/

/-- One network request of the program. `submitRequest` records the `kind`
form field of the submission payload. -/
inductive NetEvent where
  | authRequest
  | submitRequest (kind : String)
  | leaseRequest
  | fetchRequest
  | uploadRequest

/-- The `args` object of the lease response:
`args.get('action')` and `args.get('fields', [])`. -/
structure LeaseArgs where
  action : Option String
  fields : List (String × String)

/-- The three remote endpoints `_upload_media` may call, as oracles:
the lease POST, the media GET (only its status matters to the control flow)
and the storage-upload POST (status and text body). -/
structure MediaEnv where
  lease : Transport (HttpResp LeaseArgs)
  fetchStatus : Transport Nat
  upload : Transport (Nat × List Char)

/-- `_upload_media`: lease → fetch → upload → locate, each step aborting
with `None` on failure.  The filename / MIME payload of the lease request is
not modelled (no claim reads it).  The first guard models
`self._get_headers()` raising `ValueError` on a falsy token inside the
`try`, which the `except` converts to `None` before any request is sent. -/
def upload_media (st : PosterState) (env : MediaEnv) :
    Option (List Char) × List NetEvent :=
  if optStrTruthy st.access_token then
    match env.lease with
    | .exn => (none, [.leaseRequest])
    | .resp r =>
      if r.status ≠ 200 then (none, [.leaseRequest])
      else
        match r.body with
        | none => (none, [.leaseRequest])
        | some args =>
          -- `if not action or not fields:` (line 291)
          if optStrTruthy args.action = false ∨ args.fields = [] then
            (none, [.leaseRequest])
          else
            match env.fetchStatus with
            | .exn => (none, [.leaseRequest, .fetchRequest])
            | .resp ms =>
              if ms ≠ 200 then (none, [.leaseRequest, .fetchRequest])
              else
                match env.upload with
                | .exn => (none, [.leaseRequest, .fetchRequest, .uploadRequest])
                | .resp (us, utext) =>
                  if us ≠ 200 then
                    (none, [.leaseRequest, .fetchRequest, .uploadRequest])
                  else
                    (extract_location utext,
                      [.leaseRequest, .fetchRequest, .uploadRequest])
  else
    (none, [])

/-- C3's counterexample: a lease response with status 200 that carries an
`action` URL fragment but an empty `fields` list does not "lack both", yet
the code aborts the upload at the lease step (the source's guard is
`if not action or not fields`, failing when either is missing, not both). -/
theorem lease_check_counterexample :
    upload_media { access_token := some "tok", token_type := "bearer" }
        { lease := Transport.resp
            { status := 200,
              body := some { action := some "//bucket.s3/amazon", fields := [] } },
          fetchStatus := Transport.resp 200,
          upload := Transport.resp (200, []) }
      = (none, [NetEvent.leaseRequest])
    ∧ ¬ ((200 : Nat) ≠ 200
          ∨ (optStrTruthy (some "//bucket.s3/amazon") = false
              ∧ ([] : List (String × String)) = [])) :=
  ⟨rfl, by decide⟩

/-- C3 amended: with an authenticated poster and a parseable lease response,
the upload aborts at the lease step (result `None`, no fetch or upload
request) exactly when the status is not 200, **or** the `action` fragment is
missing/falsy, **or** the `fields` list is empty — either lack suffices, not
only the lack of both. -/
theorem lease_check_amended :
    ∀ (st : PosterState) (env : MediaEnv) (r : HttpResp LeaseArgs) (args : LeaseArgs),
      optStrTruthy st.access_token = true →
      env.lease = Transport.resp r →
      r.body = some args →
      ((upload_media st env).1 = none
          ∧ (upload_media st env).2 = [NetEvent.leaseRequest]
        ↔ r.status ≠ 200 ∨ optStrTruthy args.action = false ∨ args.fields = []) := by
  intro st env r args htok hl hb
  by_cases hs : r.status = 200
  · by_cases hact : optStrTruthy args.action = false
    · simp [upload_media, htok, hl, hb, hs, hact]
    · by_cases hf : args.fields = []
      · simp [upload_media, htok, hl, hb, hs, hact, hf]
      · cases hms : env.fetchStatus with
        | exn => simp [upload_media, htok, hl, hb, hs, hact, hf, hms]
        | resp ms =>
          by_cases hm : ms = 200
          · cases hus : env.upload with
            | exn => simp [upload_media, htok, hl, hb, hs, hact, hf, hms, hm, hus]
            | resp p =>
              rcases p with ⟨us, utext⟩
              by_cases hu : us = 200
              · simp [upload_media, htok, hl, hb, hs, hact, hf, hms, hm, hus, hu]
              · simp [upload_media, htok, hl, hb, hs, hact, hf, hms, hm, hus, hu]
          · simp [upload_media, htok, hl, hb, hs, hact, hf, hms, hm]
  · simp [upload_media, htok, hl, hb, hs]

/-- Witness for C3's amended statement: a 500 lease response with both an
action and a non-empty field list still aborts the lease step. -/
theorem lease_check_amended_witness :
    ((upload_media { access_token := some "tok", token_type := "bearer" }
        { lease := Transport.resp
            { status := 500, body := some { action := some "//a", fields := [("k", "v")] } },
          fetchStatus := Transport.resp 200,
          upload := Transport.resp (200, []) }).1 = none
      ∧ (upload_media { access_token := some "tok", token_type := "bearer" }
          { lease := Transport.resp
              { status := 500, body := some { action := some "//a", fields := [("k", "v")] } },
            fetchStatus := Transport.resp 200,
            upload := Transport.resp (200, []) }).2 = [NetEvent.leaseRequest]
      ↔ (500 : Nat) ≠ 200 ∨ optStrTruthy (some "//a") = false
          ∨ ([("k", "v")] : List (String × String)) = []) :=
  lease_check_amended _ _ _ _ (by decide) rfl rfl

/-- C7: each non-200 status in the lease → fetch → upload sequence makes
`_upload_media` return `None` having performed no later request of the
sequence: a failed lease never fetches or uploads, a failed fetch never
uploads, a failed upload never proceeds to a submission. -/
theorem upload_media_short_circuits :
    (∀ (st : PosterState) (env : MediaEnv) (r : HttpResp LeaseArgs),
        optStrTruthy st.access_token = true →
        env.lease = Transport.resp r → r.status ≠ 200 →
        upload_media st env = (none, [NetEvent.leaseRequest]))
    ∧ (∀ (st : PosterState) (env : MediaEnv) (r : HttpResp LeaseArgs)
          (args : LeaseArgs) (ms : Nat),
        optStrTruthy st.access_token = true →
        env.lease = Transport.resp r → r.status = 200 → r.body = some args →
        optStrTruthy args.action = true → args.fields ≠ [] →
        env.fetchStatus = Transport.resp ms → ms ≠ 200 →
        upload_media st env = (none, [NetEvent.leaseRequest, NetEvent.fetchRequest]))
    ∧ (∀ (st : PosterState) (env : MediaEnv) (r : HttpResp LeaseArgs)
          (args : LeaseArgs) (ms us : Nat) (utext : List Char),
        optStrTruthy st.access_token = true →
        env.lease = Transport.resp r → r.status = 200 → r.body = some args →
        optStrTruthy args.action = true → args.fields ≠ [] →
        env.fetchStatus = Transport.resp ms → ms = 200 →
        env.upload = Transport.resp (us, utext) → us ≠ 200 →
        upload_media st env =
          (none, [NetEvent.leaseRequest, NetEvent.fetchRequest, NetEvent.uploadRequest])) := by
  refine ⟨?_, ?_, ?_⟩
  · intro st env r htok hl hs
    simp [upload_media, htok, hl, hs]
  · intro st env r args ms htok hl hs hb hact hf hms hm
    simp [upload_media, htok, hl, hs, hb, hact, hf, hms, hm]
  · intro st env r args ms us utext htok hl hs hb hact hf hms hm hus hu
    simp [upload_media, htok, hl, hs, hb, hact, hf, hms, hm, hus, hu]

/-- Witness for C7, one concrete run per step: a 503 lease, a 404 fetch
after a good lease, and a 400 storage upload after a good lease and fetch. -/
theorem upload_media_short_circuits_witness :
    upload_media { access_token := some "t", token_type := "bearer" }
        { lease := Transport.resp { status := 503, body := none },
          fetchStatus := Transport.resp 200, upload := Transport.resp (200, []) }
      = (none, [NetEvent.leaseRequest])
    ∧ upload_media { access_token := some "t", token_type := "bearer" }
        { lease := Transport.resp
            { status := 200, body := some { action := some "//a", fields := [("k", "v")] } },
          fetchStatus := Transport.resp 404, upload := Transport.resp (200, []) }
      = (none, [NetEvent.leaseRequest, NetEvent.fetchRequest])
    ∧ upload_media { access_token := some "t", token_type := "bearer" }
        { lease := Transport.resp
            { status := 200, body := some { action := some "//a", fields := [("k", "v")] } },
          fetchStatus := Transport.resp 200, upload := Transport.resp (400, []) }
      = (none, [NetEvent.leaseRequest, NetEvent.fetchRequest, NetEvent.uploadRequest]) :=
  ⟨upload_media_short_circuits.1 _ _ _ (by decide) rfl (by decide),
   upload_media_short_circuits.2.1 _ _ _ { action := some "//a", fields := [("k", "v")] } 404
     (by decide) rfl rfl rfl (by decide) (by decide) rfl (by decide),
   upload_media_short_circuits.2.2 _ _ _ { action := some "//a", fields := [("k", "v")] } 200 400 []
     (by decide) rfl rfl rfl (by decide) (by decide) rfl rfl rfl (by decide)⟩

/-! ## The submission endpoint and the three public operations
(`post_text` lines 123-184, `post_link` lines 186-251,
`post_media` lines 335-407 of the source)

Each operation runs the same prelude:

```python
if not self.access_token:
    if not self.authenticate():
        return None
```

then a `try` block that builds the payload and POSTs `/api/submit`.  Inside
the `try`, `self._get_headers()` raises `ValueError` on a falsy token before
any request is sent, and the `except` converts that to `None`. -/

/-- The parsed JSON envelope of a submission response:
`json.errors` (missing key ≡ `[]`, both falsy) and `json.data.{id,name,permalink}`. -/
structure SubmitBody where
  errors : List String
  id : Option String
  name : Option String
  permalink : Option String

/-- Interpretation of the `/api/submit` exchange inside the `try` block:
`None` on transport failure, non-200 status, unparseable body or a non-empty
`json.errors` list; otherwise the parsed envelope. -/
def submit_outcome (t : Transport (HttpResp SubmitBody)) : Option SubmitBody :=
  match t with
  | .exn => none
  | .resp r =>
    if r.status = 200 then
      match r.body with
      | none => none
      | some b => if b.errors ≠ [] then none else some b
    else none

/-- One `/api/submit` POST with the given `kind` form field: emits no request
at all when the token is falsy (`_get_headers` raises first); otherwise emits
exactly one submit request whose outcome is `submit_outcome`. -/
def submit_post (st : PosterState) (kind : String)
    (t : Transport (HttpResp SubmitBody)) : Option SubmitBody × List NetEvent :=
  if optStrTruthy st.access_token then
    (submit_outcome t, [.submitRequest kind])
  else
    (none, [])

/-- The oracles a text or link post consumes. -/
structure PostEnv where
  auth : Transport (HttpResp AuthBody)
  submit : Transport (HttpResp SubmitBody)

def post_text (st : PosterState) (env : PostEnv) :
    Option SubmitBody × PosterState × List NetEvent :=
  if optStrTruthy st.access_token then
    ((submit_post st "self" env.submit).1, st, (submit_post st "self" env.submit).2)
  else
    match authenticate st env.auth with
    | (false, st1) => (none, st1, [NetEvent.authRequest])
    | (true, st1) =>
      ((submit_post st1 "self" env.submit).1, st1,
        NetEvent.authRequest :: (submit_post st1 "self" env.submit).2)

def post_link (st : PosterState) (env : PostEnv) :
    Option SubmitBody × PosterState × List NetEvent :=
  if optStrTruthy st.access_token then
    ((submit_post st "link" env.submit).1, st, (submit_post st "link" env.submit).2)
  else
    match authenticate st env.auth with
    | (false, st1) => (none, st1, [NetEvent.authRequest])
    | (true, st1) =>
      ((submit_post st1 "link" env.submit).1, st1,
        NetEvent.authRequest :: (submit_post st1 "link" env.submit).2)

/-- `media_url.lower()` as a character list. -/
def lowerList (s : String) : List Char :=
  s.toList.map Char.toLower

/-- Line 367: `media_url.lower().endswith('.mp4') or 'video' in media_url.lower()`. -/
def is_video (media_url : String) : Bool :=
  (".mp4".toList.isSuffixOf (lowerList media_url))
    || containsSub (lowerList media_url) ("video".toList)

/-- Line 368: `kind = 'video' if is_video else 'image'`. -/
def media_kind (media_url : String) : String :=
  if is_video media_url then "video" else "image"

/-- The oracles a media post consumes. -/
structure MediaPostEnv where
  auth : Transport (HttpResp AuthBody)
  media : MediaEnv
  submit : Transport (HttpResp SubmitBody)

/-- The `try` block of `post_media`: upload the media, abort on `None`,
otherwise submit with the detected `kind`. -/
def post_media_body (media_url : String) (st : PosterState) (env : MediaPostEnv) :
    Option SubmitBody × List NetEvent :=
  match upload_media st env.media with
  | (none, evs) => (none, evs)
  | (some _, evs) =>
    ((submit_post st (media_kind media_url) env.submit).1,
      evs ++ (submit_post st (media_kind media_url) env.submit).2)

def post_media (media_url : String) (st : PosterState) (env : MediaPostEnv) :
    Option SubmitBody × PosterState × List NetEvent :=
  if optStrTruthy st.access_token then
    ((post_media_body media_url st env).1, st, (post_media_body media_url st env).2)
  else
    match authenticate st env.auth with
    | (false, st1) => (none, st1, [NetEvent.authRequest])
    | (true, st1) =>
      ((post_media_body media_url st1 env).1, st1,
        NetEvent.authRequest :: (post_media_body media_url st1 env).2)

/-! ### Counting authentication requests -/

def isAuthEvent : NetEvent → Bool
  | .authRequest => true
  | _ => false

/-- Number of authentication requests in a trace. -/
def countAuth (l : List NetEvent) : Nat :=
  (l.filter isAuthEvent).length

lemma countAuth_nil : countAuth [] = 0 := rfl

lemma countAuth_cons_auth (l : List NetEvent) :
    countAuth (NetEvent.authRequest :: l) = countAuth l + 1 := by
  simp [countAuth, isAuthEvent]

lemma countAuth_append (l₁ l₂ : List NetEvent) :
    countAuth (l₁ ++ l₂) = countAuth l₁ + countAuth l₂ := by
  simp [countAuth, List.filter_append]

lemma submit_post_no_auth (st : PosterState) (kind : String)
    (t : Transport (HttpResp SubmitBody)) :
    countAuth (submit_post st kind t).2 = 0 := by
  unfold submit_post
  split <;> simp [countAuth, isAuthEvent]

lemma upload_media_no_auth (st : PosterState) (env : MediaEnv) :
    countAuth (upload_media st env).2 = 0 := by
  unfold upload_media
  repeat' split
  all_goals simp [countAuth, isAuthEvent]

lemma post_media_body_no_auth (media_url : String) (st : PosterState)
    (env : MediaPostEnv) :
    countAuth (post_media_body media_url st env).2 = 0 := by
  unfold post_media_body
  rcases hup : upload_media st env.media with ⟨res, evs⟩
  have hevs : countAuth evs = 0 := by
    have := upload_media_no_auth st env.media
    rw [hup] at this
    exact this
  cases res <;>
    simp [hevs, countAuth_append, submit_post_no_auth]

/-- C1's counterexample: a stored access token that is the empty string is
non-null, yet `post_text` (the guard is `if not self.access_token`, Python
truthiness) still makes an authentication attempt. -/
theorem submit_auth_policy_counterexample :
    (some "" : Option String) ≠ none
    ∧ countAuth (post_text { access_token := some "", token_type := "bearer" }
        { auth := Transport.resp
            { status := 200, body := some { access_token := some "tok", token_type := none } },
          submit := Transport.resp
            { status := 200,
              body := some { errors := [], id := none, name := none, permalink := none } } }).2.2
      = 1 := by
  exact ⟨by simp, rfl⟩

/-- C1 amended: for each public submission operation, when the stored token
is null **or empty** (Python-falsy) exactly one authentication request is
made, and it comes before anything else; if that attempt fails the operation
returns `None` having made no other network request; when the token is
non-null **and non-empty** no authentication request is made at all. -/
theorem submit_auth_policy_amended :
    (∀ (st : PosterState) (env : PostEnv),
        (optStrTruthy st.access_token = false →
          (post_text st env).2.2.head? = some NetEvent.authRequest
            ∧ countAuth (post_text st env).2.2 = 1)
        ∧ (optStrTruthy st.access_token = false →
            (authenticate st env.auth).1 = false →
            post_text st env = (none, (authenticate st env.auth).2, [NetEvent.authRequest]))
        ∧ (optStrTruthy st.access_token = true →
            countAuth (post_text st env).2.2 = 0))
    ∧ (∀ (st : PosterState) (env : PostEnv),
        (optStrTruthy st.access_token = false →
          (post_link st env).2.2.head? = some NetEvent.authRequest
            ∧ countAuth (post_link st env).2.2 = 1)
        ∧ (optStrTruthy st.access_token = false →
            (authenticate st env.auth).1 = false →
            post_link st env = (none, (authenticate st env.auth).2, [NetEvent.authRequest]))
        ∧ (optStrTruthy st.access_token = true →
            countAuth (post_link st env).2.2 = 0))
    ∧ (∀ (media_url : String) (st : PosterState) (env : MediaPostEnv),
        (optStrTruthy st.access_token = false →
          (post_media media_url st env).2.2.head? = some NetEvent.authRequest
            ∧ countAuth (post_media media_url st env).2.2 = 1)
        ∧ (optStrTruthy st.access_token = false →
            (authenticate st env.auth).1 = false →
            post_media media_url st env
              = (none, (authenticate st env.auth).2, [NetEvent.authRequest]))
        ∧ (optStrTruthy st.access_token = true →
            countAuth (post_media media_url st env).2.2 = 0)) := by
  refine ⟨fun st env => ⟨?_, ?_, ?_⟩, fun st env => ⟨?_, ?_, ?_⟩,
    fun media_url st env => ⟨?_, ?_, ?_⟩⟩
  · intro h
    rcases hA : authenticate st env.auth with ⟨ok, st1⟩
    cases ok
    · simp [post_text, h, hA, countAuth, isAuthEvent]
    · simp [post_text, h, hA, countAuth_cons_auth, submit_post_no_auth]
  · intro h hf
    rcases hA : authenticate st env.auth with ⟨ok, st1⟩
    rw [hA] at hf
    simp only at hf
    subst hf
    simp [post_text, h, hA]
  · intro h
    simp [post_text, h, submit_post_no_auth]
  · intro h
    rcases hA : authenticate st env.auth with ⟨ok, st1⟩
    cases ok
    · simp [post_link, h, hA, countAuth, isAuthEvent]
    · simp [post_link, h, hA, countAuth_cons_auth, submit_post_no_auth]
  · intro h hf
    rcases hA : authenticate st env.auth with ⟨ok, st1⟩
    rw [hA] at hf
    simp only at hf
    subst hf
    simp [post_link, h, hA]
  · intro h
    simp [post_link, h, submit_post_no_auth]
  · intro h
    rcases hA : authenticate st env.auth with ⟨ok, st1⟩
    cases ok
    · simp [post_media, h, hA, countAuth, isAuthEvent]
    · simp [post_media, h, hA, countAuth_cons_auth, post_media_body_no_auth]
  · intro h hf
    rcases hA : authenticate st env.auth with ⟨ok, st1⟩
    rw [hA] at hf
    simp only at hf
    subst hf
    simp [post_media, h, hA]
  · intro h
    simp [post_media, h, post_media_body_no_auth]

/-- Witness for C1's amended statement: with no stored token and a failing
(403) token endpoint, `post_text` makes the one authentication request first
and nothing else. -/
theorem submit_auth_policy_amended_witness :
    (post_text { access_token := none, token_type := "bearer" }
        { auth := Transport.resp { status := 403, body := none },
          submit := Transport.resp
            { status := 200,
              body := some { errors := [], id := none, name := none, permalink := none } } }).2.2.head?
      = some NetEvent.authRequest
    ∧ countAuth (post_text { access_token := none, token_type := "bearer" }
        { auth := Transport.resp { status := 403, body := none },
          submit := Transport.resp
            { status := 200,
              body := some { errors := [], id := none, name := none, permalink := none } } }).2.2
      = 1 :=
  (submit_auth_policy_amended.1 _ _).1 rfl

/-- C5's claim side: "ends with a video file extension".  The claim's words
name no fixed list, so the common video file extensions stand in for it;
only membership of `.mov` is used. -/
def specVideoExtensions : List String :=
  [".mp4", ".mov", ".avi", ".webm", ".mkv"]

/-- C5's claim side, following the spec's words: the URL ends with a video
file extension, or contains `"video"` case-insensitively. -/
def spec_is_video (media_url : String) : Bool :=
  (specVideoExtensions.any fun ext => ext.toList.isSuffixOf (lowerList media_url))
    || containsSub (lowerList media_url) ("video".toList)

/-- C5's counterexample: `https://cdn.example/clip.mov` ends with the video
file extension `.mov` (so the claim says kind `video`), but the code checks
only `.mp4` and submits kind `image`. -/
theorem media_kind_counterexample :
    media_kind "https://cdn.example/clip.mov" = "image"
    ∧ ".mov" ∈ specVideoExtensions
    ∧ ".mov".toList.isSuffixOf (lowerList "https://cdn.example/clip.mov") = true
    ∧ spec_is_video "https://cdn.example/clip.mov" = true := by
  exact ⟨rfl, by decide, by decide, rfl⟩

/-- C5 amended: the kind submitted by `post_media` is `video` exactly when
the lowercased source URL ends with `.mp4` (the only video extension the
code checks) or contains the substring `video`; otherwise it is `image`. -/
theorem media_kind_amended :
    ∀ media_url : String,
      (media_kind media_url = "video"
        ↔ ".mp4".toList.isSuffixOf (lowerList media_url) = true
            ∨ containsSub (lowerList media_url) ("video".toList) = true)
      ∧ (media_kind media_url = "image"
        ↔ ¬ (".mp4".toList.isSuffixOf (lowerList media_url) = true
              ∨ containsSub (lowerList media_url) ("video".toList) = true)) := by
  intro u
  unfold media_kind is_video
  by_cases h1 : ".mp4".toList.isSuffixOf (lowerList u) = true <;>
    by_cases h2 : containsSub (lowerList u) ("video".toList) = true <;>
      simp [h1, h2] <;> tauto

/-- Witness for C5's amended statement: a URL containing `VIDEO` is
submitted with kind `video`. -/
theorem media_kind_amended_witness :
    media_kind "https://x/VIDEO/a.jpg" = "video" :=
  (media_kind_amended "https://x/VIDEO/a.jpg").1.mpr (Or.inr (by decide))

/-! ## The `/post` handler `post_to_reddit` (lines 482-582 of the source)

Only the post-type resolution (lines 535-542) and the dispatch to the three
submission operations (lines 544-568) bear on the claims; JSON parsing, the
missing-title 400 and the result formatting are not modelled.  Request
fields are `Option String` with absent keys as `none` (the source reads
`data.get(...)`, and `text = data.get('text', '')` defaults to `""`). -/

/-- The fields of the `/post` request body the dispatch reads. -/
structure ReqData where
  title : Option String
  text : Option String
  url : Option String
  media_url : Option String
  post_type : Option String
  flair_id : Option String

/-- Lines 535-542: `if not post_type:` then auto-detect from
`media_url` / `url` / neither. -/
def resolve_post_type (d : ReqData) : String :=
  if optStrTruthy d.post_type then d.post_type.getD ""
  else if optStrTruthy d.media_url then "media"
  else if optStrTruthy d.url then "link"
  else "self"

/-- The call the handler makes into the poster. -/
inductive PostCall where
  | media (subreddit title media_url text : String) (flair : Option String)
  | link (subreddit title url text : String) (flair : Option String)
  | selfText (subreddit title text : String) (flair : Option String)

/-- Lines 544-568: `if post_type == 'media' and media_url: ...
elif post_type == 'link' and url: ... else: post_text(...)`. -/
def dispatch_post (d : ReqData) (subreddit title : String) : PostCall :=
  if resolve_post_type d = "media" ∧ optStrTruthy d.media_url = true then
    .media subreddit title (d.media_url.getD "") (d.text.getD "") d.flair_id
  else if resolve_post_type d = "link" ∧ optStrTruthy d.url = true then
    .link subreddit title (d.url.getD "") (d.text.getD "") d.flair_id
  else
    .selfText subreddit title (d.text.getD "") d.flair_id

/-- C6: without an explicit `post_type`, a truthy `media_url` infers `media`
(whatever `url` holds); a truthy `url` with no truthy `media_url` infers
`link`; neither infers `self`. -/
theorem post_type_inference :
    ∀ d : ReqData, optStrTruthy d.post_type = false →
      (optStrTruthy d.media_url = true → resolve_post_type d = "media")
      ∧ (optStrTruthy d.media_url = false → optStrTruthy d.url = true →
          resolve_post_type d = "link")
      ∧ (optStrTruthy d.media_url = false → optStrTruthy d.url = false →
          resolve_post_type d = "self") := by
  intro d h
  refine ⟨?_, ?_, ?_⟩
  · intro hm
    simp [resolve_post_type, h, hm]
  · intro hm hu
    simp [resolve_post_type, h, hm, hu]
  · intro hm hu
    simp [resolve_post_type, h, hm, hu]

/-- Witness for C6: the three inference cases at concrete request bodies. -/
theorem post_type_inference_witness :
    resolve_post_type
        ⟨some "T", none, some "https://x", some "https://m/a.jpg", none, none⟩ = "media"
    ∧ resolve_post_type ⟨some "T", none, some "https://x", none, none, none⟩ = "link"
    ∧ resolve_post_type ⟨some "T", some "hi", none, none, none, none⟩ = "self" :=
  ⟨(post_type_inference
      ⟨some "T", none, some "https://x", some "https://m/a.jpg", none, none⟩ rfl).1 (by decide),
   (post_type_inference ⟨some "T", none, some "https://x", none, none, none⟩ rfl).2.1
      rfl (by decide),
   (post_type_inference ⟨some "T", some "hi", none, none, none, none⟩ rfl).2.2 rfl rfl⟩

/-- C10: an explicit `post_type` of `media` with no `media_url`, or of
`link` with no `url`, produces no error: the dispatch falls through to the
default branch and publishes a self/text post with the request's title and
text. -/
theorem explicit_type_missing_field_falls_through :
    ∀ (d : ReqData) (subreddit title : String),
      (d.post_type = some "media" → d.media_url = none →
        dispatch_post d subreddit title
          = PostCall.selfText subreddit title (d.text.getD "") d.flair_id)
      ∧ (d.post_type = some "link" → d.url = none →
        dispatch_post d subreddit title
          = PostCall.selfText subreddit title (d.text.getD "") d.flair_id) := by
  intro d subreddit title
  constructor
  · intro hp hm
    simp [dispatch_post, resolve_post_type, hp, hm, optStrTruthy]
  · intro hp hu
    simp [dispatch_post, resolve_post_type, hp, hu, optStrTruthy]

/-- Witness for C10: `post_type = "media"` with no `media_url`, and
`post_type = "link"` with no `url`, both end in a self/text post. -/
theorem explicit_type_missing_field_falls_through_witness :
    dispatch_post ⟨some "T", some "hi", none, none, some "media", none⟩ "test" "T"
      = PostCall.selfText "test" "T" "hi" none
    ∧ dispatch_post ⟨some "T", some "hi", none, none, some "link", none⟩ "test" "T"
      = PostCall.selfText "test" "T" "hi" none :=
  ⟨(explicit_type_missing_field_falls_through _ "test" "T").1 rfl rfl,
   (explicit_type_missing_field_falls_through _ "test" "T").2 rfl rfl⟩

end RedditAutopost
